import Mathlib

/-!
Verification development for `ptt_gatt.py` (Anytone PTT Bluetooth Controller).

The script is shallowly embedded: its global mutable state (`button_pressed`,
`PTT_MAC`, `config`) is threaded explicitly, the BLE transport and the
key-injection transport (pyautogui) are abstracted as inputs/outputs, and each
Python function becomes a pure Lean function with the same name and the same
control flow.
-/

namespace PttGatt

/-- A key-injection action (pyautogui.keyDown / pyautogui.keyUp with a key name). -/
inductive KeyAction where
  | keyDown (key : String)
  | keyUp (key : String)
  deriving DecidableEq, Repr

/-- `data.decode('ascii')` on a byte sequence: succeeds iff every byte is < 128,
yielding the corresponding characters; otherwise raises `UnicodeDecodeError`
(modelled as `none`). -/
def decodeAscii (data : List Nat) : Option (List Char) :=
  if data.all (fun b => b < 128) then some (data.map Char.ofNat) else none

/-- One lowercase hexadecimal digit, as produced by Python `bytes.hex()`. -/
def hexDigit (n : Nat) : Char :=
  if n < 10 then Char.ofNat (48 + n) else Char.ofNat (87 + n)

/-- `data.hex()`: two lowercase hex digits per byte. -/
def bytesHex (data : List Nat) : List Char :=
  data.flatMap (fun b => [hexDigit (b / 16), hexDigit (b % 16)])

/-- Lines 110-113: decode the payload as ASCII; on `UnicodeDecodeError` fall
back to the hex representation. -/
def message (data : List Nat) : List Char :=
  match decodeAscii data with
  | some s => s
  | none => bytesHex data

/-- `str.startswith` on the decoded message. -/
def listStartsWith : List Char → List Char → Bool
  | _, [] => true
  | [], _ :: _ => false
  | c :: cs, p :: ps => c == p && listStartsWith cs ps

/-- Python's `pat in hay` substring test on strings. -/
def listContains : List Char → List Char → Bool
  | [], pat => listStartsWith [] pat
  | c :: t, pat => listStartsWith (c :: t) pat || listContains t pat

/-- The `"ELET1"` press marker. -/
def ELET1 : List Char := ['E', 'L', 'E', 'T', '1']

/-- The `"ELET2"` release marker. -/
def ELET2 : List Char := ['E', 'L', 'E', 'T', '2']

/-- The `"BATT"` battery marker (ignored by the handler). -/
def BATT : List Char := ['B', 'A', 'T', 'T']

/-- `handle_notify` (lines 90-135): given the configured key, the current
`button_pressed` flag and the raw payload, return the new flag and the key
actions issued.  Payloads shorter than 5 bytes are rejected (line 106; the
`not data` test is subsumed by the length test); `ELET1` issues a key-down only
when the flag is clear, `ELET2` a key-up only when set; `BATT` and anything
else do nothing. -/
def handle_notify (key_to_hold : String) (button_pressed : Bool) (data : List Nat) :
    Bool × List KeyAction :=
  if data.length < 5 then (button_pressed, [])
  else
    let m := message data
    if listStartsWith m ELET1 then
      if !button_pressed then (true, [KeyAction.keyDown key_to_hold])
      else (button_pressed, [])
    else if listStartsWith m ELET2 then
      if button_pressed then (false, [KeyAction.keyUp key_to_hold])
      else (button_pressed, [])
    else (button_pressed, [])

/-- `handle_notify` over a sequence of payloads, accumulating the actions. -/
def handle_list (key_to_hold : String) (button_pressed : Bool) :
    List (List Nat) → Bool × List KeyAction
  | [] => (button_pressed, [])
  | d :: rest =>
    let r1 := handle_notify key_to_hold button_pressed d
    let r2 := handle_list key_to_hold r1.1 rest
    (r2.1, r1.2 ++ r2.2)

/-- `handle_notify` with an explicit fallible key-injection transport.  The
source wraps only `data.decode('ascii')` in `try/except` (lines 110-113); the
`pyautogui.keyDown`/`keyUp` calls at lines 123 and 130 are bare, so a failure
of the dispatch propagates out of the handler. -/
def handle_notify_fallible (dispatch : KeyAction → Except String Unit)
    (key_to_hold : String) (button_pressed : Bool) (data : List Nat) :
    Except String Bool :=
  if data.length < 5 then Except.ok button_pressed
  else
    let m := message data
    if listStartsWith m ELET1 then
      if !button_pressed then
        match dispatch (KeyAction.keyDown key_to_hold) with
        | Except.error e => Except.error e
        | Except.ok _ => Except.ok true
      else Except.ok button_pressed
    else if listStartsWith m ELET2 then
      if button_pressed then
        match dispatch (KeyAction.keyUp key_to_hold) with
        | Except.error e => Except.error e
        | Except.ok _ => Except.ok false
      else Except.ok button_pressed
    else Except.ok button_pressed

/-- The bytes of `b"ELET1"`. -/
def elet1Bytes : List Nat := [69, 76, 69, 84, 49]

/-- The bytes of `b"ELET2"`. -/
def elet2Bytes : List Nat := [69, 76, 69, 84, 50]

/-! ### Configuration (`ConfigParser` data contract) and device resolver -/

/-- The in-memory configuration: a `(section, option) -> value` table, the data
contract of `ConfigParser` that the script reads with `config.get` and mutates
with `config.set`. -/
def Config := List ((String × String) × String)

instance : DecidableEq Config := by unfold Config; infer_instance

/-- `config.get(sec, key, fallback=fb)`. -/
def config_get : Config → String → String → String → String
  | [], _, _, fb => fb
  | e :: rest, sec, key, fb =>
    if e.1.1 == sec && e.1.2 == key then e.2 else config_get rest sec key fb

/-- `config.set(sec, key, val)`: overwrite the existing entry, or add one. -/
def config_set : Config → String → String → String → Config
  | [], sec, key, val => [((sec, key), val)]
  | e :: rest, sec, key, val =>
    if e.1.1 == sec && e.1.2 == key then (e.1, val) :: rest
    else e :: config_set rest sec key val

/-- `save_mac_to_config` (lines 69-87): sets `PTT.mac_address` and rewrites the
config file with the updated table. -/
def save_mac_to_config (mac_address : String) (cfg : Config) : Config :=
  config_set cfg "PTT" "mac_address" mac_address

/-- A device produced by `BleakScanner.discover`: an address and an optional
advertised name. -/
structure Device where
  address : String
  name : Option String
  deriving DecidableEq, Repr

/-- Python `str.upper()` (ASCII case, as used on MAC addresses). -/
def strUpper (s : String) : String := String.mk (s.data.map Char.toUpper)

/-- Line 166: `device.name and "ELET-PTT" in device.name`. -/
def is_ptt_device (d : Device) : Bool :=
  match d.name with
  | none => false
  | some n => n != "" && listContains n.data ['E', 'L', 'E', 'T', '-', 'P', 'T', 'T']

/-- One step of decimal-number parsing. -/
def parseNatGo : Nat → List Char → Option Nat
  | acc, [] => some acc
  | acc, c :: rest =>
    if 48 ≤ c.toNat ∧ c.toNat ≤ 57 then parseNatGo (acc * 10 + (c.toNat - 48)) rest
    else none

/-- Parse a nonempty run of decimal digits. -/
def parseNat : List Char → Option Nat
  | [] => none
  | cs => parseNatGo 0 cs

/-- Python `int(s)` on a line of input: an optional sign followed by decimal
digits, `ValueError` (`none`) otherwise.  (Python additionally strips
surrounding whitespace and accepts digit-group underscores; those inputs are
not modelled.) -/
def pythonInt (s : String) : Option Int :=
  match s.data with
  | [] => none
  | c :: rest =>
    if c == Char.ofNat 45 then (parseNat rest).map (fun n => -(n : Int))
    else if c == Char.ofNat 43 then (parseNat rest).map (fun n => (n : Int))
    else (parseNat (c :: rest)).map (fun n => (n : Int))

/-- What the operator does at the `input("Enter number: ")` prompt: a line of
text, or `KeyboardInterrupt`. -/
inductive OperatorInput where
  | line (s : String)
  | interrupt
  deriving DecidableEq, Repr

/-- The observable result of `find_ptt_device`: the returned value (line 157/171
`None`, or a MAC address string), together with the final `PTT_MAC` global and
the final configuration. -/
structure ResolveOutcome where
  result : Option String
  ptt_mac : Option String
  config : Config
  deriving DecidableEq

/-- Lines 186-199: the multi-device prompt.  `int(choice)` raising `ValueError`
or `input()` raising `KeyboardInterrupt` is caught and yields `None`; an
out-of-range index prints `Invalid choice` and yields `None`; a valid index
selects that device, sets `PTT_MAC`, and persists it. -/
def select_from (ptts : List Device) (inp : OperatorInput) (cfg : Config) :
    ResolveOutcome :=
  match inp with
  | OperatorInput.interrupt => ⟨none, none, cfg⟩
  | OperatorInput.line s =>
    match pythonInt s with
    | none => ⟨none, none, cfg⟩
    | some c =>
      let idx := c - 1
      if 0 ≤ idx ∧ idx < (ptts.length : Int) then
        match ptts.get? idx.toNat with
        | some d => ⟨some d.address, some d.address, save_mac_to_config d.address cfg⟩
        | none => ⟨none, none, cfg⟩
      else ⟨none, none, cfg⟩

/-- Lines 159-199: fresh discovery.  Filter the scan for ELET-PTT devices; zero
matches return `None`, exactly one is auto-selected and persisted, several are
offered to the operator. -/
def discover_and_select (scan : List Device) (inp : OperatorInput) (cfg : Config) :
    ResolveOutcome :=
  match scan.filter is_ptt_device with
  | [] => ⟨none, none, cfg⟩
  | [d] => ⟨some d.address, some d.address, save_mac_to_config d.address cfg⟩
  | d1 :: d2 :: rest => select_from (d1 :: d2 :: rest) inp cfg

/-- Lines 150-157: a configured `PTT_MAC` is only verified against the scan
(case-insensitive address comparison); it is returned as configured if some
discovered device matches, and `None` is returned otherwise. -/
def verify_configured (mac : String) (scan : List Device) (cfg : Config) :
    ResolveOutcome :=
  if scan.any (fun d => strUpper d.address == strUpper mac) then ⟨some mac, some mac, cfg⟩
  else ⟨none, some mac, cfg⟩

/-- `find_ptt_device` (lines 138-199).  `if PTT_MAC:` is Python truthiness, so
an unset or empty `PTT_MAC` goes to fresh discovery. -/
def find_ptt_device (ptt_mac : Option String) (scan : List Device)
    (inp : OperatorInput) (cfg : Config) : ResolveOutcome :=
  match ptt_mac with
  | some mac =>
    if mac = "" then discover_and_select scan inp cfg
    else verify_configured mac scan cfg
  | none => discover_and_select scan inp cfg

/-- What one iteration of `main`'s supervisory loop (lines 290-318) does with
the resolver's result: `None` prints `No ELET-PTT device found` and sleeps
`scan_interval` before rescanning (lines 303-308); an address runs
`connect_and_listen` and then sleeps `reconnect_delay` (lines 295-302).
`stop` happens only on `asyncio.CancelledError` (lines 310-313), never from a
resolver result. -/
inductive MainAction where
  | sleepScanInterval
  | sessionThenSleep (mac : String)
  | stop
  deriving DecidableEq, Repr

/-- The supervisory loop's dispatch on the resolver result. -/
def main_step : Option String → MainAction
  | none => MainAction.sleepScanInterval
  | some mac => MainAction.sessionThenSleep mac

/-! ### Session manager (`connect_and_listen`, lines 202-265) -/

/-- One observable event inside the monitoring loop (lines 233-248).  Each
iteration awaits `asyncio.sleep(1)` and then checks `client.is_connected`;
notifications are delivered by the transport between iterations; a
`CancelledError` or a transport exception can surface at the awaits. -/
inductive MonitorEvent where
  | notify (data : List Nat)
  | tick (connected : Bool)
  | cancel
  | raiseErr (msg : String)
  deriving DecidableEq, Repr

/-- How `connect_and_listen` terminates: a normal `return b`, or a re-raised
`asyncio.CancelledError` (line 248).  Plain exceptions never escape: the whole
body is wrapped in `try/except Exception` (lines 219, 258). -/
inductive SessionOutcome where
  | ret (b : Bool)
  | cancelled
  deriving DecidableEq, Repr

/-- The observable result of one `connect_and_listen` call: how it terminated,
the final `button_pressed` flag, and the key actions issued during the call. -/
structure SessionResult where
  outcome : SessionOutcome
  flag : Bool
  actions : List KeyAction
  deriving DecidableEq, Repr

/-- What the transport does during one session: the outcome of entering
`BleakClient` (`error` = exception, `ok b` = entered with `is_connected = b`),
the outcome of `start_notify`, and the monitoring-loop events. -/
structure SessionScript where
  connect : Except String Bool
  subscribe : Except String Unit
  events : List MonitorEvent

/-- The `except Exception` handler at lines 258-265: release the key if it was
held, then `return False`. -/
def except_branch (key_to_hold : String) (flag : Bool) (acts : List KeyAction) :
    SessionResult :=
  if flag then ⟨SessionOutcome.ret false, false, acts ++ [KeyAction.keyUp key_to_hold]⟩
  else ⟨SessionOutcome.ret false, flag, acts⟩

/-- The monitoring loop, lines 233-256.  `notify` runs `handle_notify`;
`tick true` is a liveness check that passes; `tick false` prints
`Connection lost` and breaks — after which the loop falls through to the
best-effort `stop_notify` and `return True` with `button_pressed` untouched;
`cancel` is the `except asyncio.CancelledError` branch (release if held,
re-raise); `raiseErr` propagates to the outer `except Exception` branch.
Running out of events is the `while should_run` condition turning false, which
also falls through to `return True`. -/
def run_monitor (key_to_hold : String) :
    Bool → List KeyAction → List MonitorEvent → SessionResult
  | flag, acts, [] => ⟨SessionOutcome.ret true, flag, acts⟩
  | flag, acts, MonitorEvent.notify d :: rest =>
    let r := handle_notify key_to_hold flag d
    run_monitor key_to_hold r.1 (acts ++ r.2) rest
  | flag, acts, MonitorEvent.tick true :: rest => run_monitor key_to_hold flag acts rest
  | flag, acts, MonitorEvent.tick false :: _ => ⟨SessionOutcome.ret true, flag, acts⟩
  | flag, acts, MonitorEvent.cancel :: _ =>
    if flag then ⟨SessionOutcome.cancelled, false, acts ++ [KeyAction.keyUp key_to_hold]⟩
    else ⟨SessionOutcome.cancelled, flag, acts⟩
  | flag, acts, MonitorEvent.raiseErr _ :: _ => except_branch key_to_hold flag acts

/-- `connect_and_listen` (lines 202-265), driven by a `SessionScript`.  A
connect exception or a `start_notify` exception reaches the
`except Exception` branch; `is_connected` false after entering returns `False`
immediately (lines 221-223); otherwise the monitoring loop runs. -/
def connect_and_listen (key_to_hold : String) (button_pressed : Bool)
    (s : SessionScript) : SessionResult :=
  match s.connect with
  | Except.error _ => except_branch key_to_hold button_pressed []
  | Except.ok connected =>
    if !connected then ⟨SessionOutcome.ret false, button_pressed, []⟩
    else
      match s.subscribe with
      | Except.error _ => except_branch key_to_hold button_pressed []
      | Except.ok _ => run_monitor key_to_hold button_pressed [] s.events

/-- `cleanup_on_exit` (lines 321-331): release the key if it is still held at
process exit. -/
def cleanup_on_exit (key_to_hold : String) (flag : Bool) : Bool × List KeyAction :=
  if flag then (false, [KeyAction.keyUp key_to_hold]) else (flag, [])

example : handle_notify "ctrl" false elet1Bytes = (true, [KeyAction.keyDown "ctrl"]) := by decide
example : handle_notify "ctrl" true elet1Bytes = (true, []) := by decide
example : handle_notify "ctrl" true elet2Bytes = (false, [KeyAction.keyUp "ctrl"]) := by decide
example : handle_notify "ctrl" false [1, 2, 3] = (false, []) := by decide
example : message [0xff, 0x00, 65, 65, 65] = ['f', 'f', '0', '0', '4', '1', '4', '1', '4', '1'] := by decide

/-! ### Theorems -/

/-- C5: for every payload shorter than 5 bytes (including the empty payload),
`handle_notify` is a no-op: `button_pressed` is unchanged and no key action is
issued. -/
theorem c5_short_payload_noop (key : String) (flag : Bool) (data : List Nat)
    (h : data.length < 5) : handle_notify key flag data = (flag, []) := by
  simp [handle_notify, h]

/-- Witness for C5 at the empty payload. -/
theorem c5_short_payload_noop_witness :
    ([] : List Nat).length < 5 ∧ handle_notify "ctrl" true [] = (true, []) :=
  ⟨by decide, c5_short_payload_noop "ctrl" true [] (by decide)⟩

/-- C1 (failing evaluation): with the key held (after an `ELET1` notification)
and the liveness check then returning false, `connect_and_listen` returns
`True` with `button_pressed` still `true` and no `keyUp` ever issued — the
loop's `break` at line 240 falls through to `return True` with no release,
contrary to the claimed key-up and flag reset. -/
theorem c1_connection_loss_keeps_key_held :
    connect_and_listen "ctrl" false
      ⟨Except.ok true, Except.ok (),
        [MonitorEvent.notify elet1Bytes, MonitorEvent.tick false]⟩ =
      ⟨SessionOutcome.ret true, true, [KeyAction.keyDown "ctrl"]⟩ := by
  decide

/-- C2 (failing evaluation): the connection-loss exit path of
`connect_and_listen` ends the session with `button_pressed = true` and no
`keyUp` among the issued actions, violating the claimed invariant that the
flag is false on every session exit path. -/
theorem c2_session_exit_leaves_flag_set :
    (connect_and_listen "ctrl" false
      ⟨Except.ok true, Except.ok (),
        [MonitorEvent.notify elet1Bytes, MonitorEvent.tick true,
         MonitorEvent.tick false]⟩).flag = true ∧
    KeyAction.keyUp "ctrl" ∉
      (connect_and_listen "ctrl" false
        ⟨Except.ok true, Except.ok (),
          [MonitorEvent.notify elet1Bytes, MonitorEvent.tick true,
           MonitorEvent.tick false]⟩).actions ∧
    (connect_and_listen "ctrl" false
      ⟨Except.ok true, Except.ok (),
        [MonitorEvent.notify elet1Bytes, MonitorEvent.tick true,
         MonitorEvent.tick false]⟩).outcome = SessionOutcome.ret true := by
  refine ⟨by decide, by decide, by decide⟩

/-- C9: an exception from the transport while entering the connection, while
subscribing, or inside the monitoring loop is caught at the session boundary:
the session returns the failure value (`ret false`, never a propagated
exception), the flag ends false, and a `keyUp` is issued exactly when the key
was held. -/
theorem c9_transport_exception_caught (key : String) (flag0 flag : Bool)
    (sub : Except String Unit) (evs rest : List MonitorEvent)
    (acts : List KeyAction) (e m : String) :
    connect_and_listen key flag0 ⟨Except.error e, sub, evs⟩ =
      ⟨SessionOutcome.ret false, false, if flag0 then [KeyAction.keyUp key] else []⟩ ∧
    connect_and_listen key flag0 ⟨Except.ok true, Except.error m, evs⟩ =
      ⟨SessionOutcome.ret false, false, if flag0 then [KeyAction.keyUp key] else []⟩ ∧
    run_monitor key flag acts (MonitorEvent.raiseErr m :: rest) =
      ⟨SessionOutcome.ret false, false,
        acts ++ if flag then [KeyAction.keyUp key] else []⟩ := by
  cases flag0 <;> cases flag <;>
    simp [connect_and_listen, run_monitor, except_branch]

/-- An `ELET1` payload seen from the clear state issues one key-down and sets
the flag. -/
lemma handle_elet1_of_false (key : String) (d : List Nat)
    (h5 : ¬ d.length < 5) (hs : listStartsWith (message d) ELET1 = true) :
    handle_notify key false d = (true, [KeyAction.keyDown key]) := by
  simp [handle_notify, h5, hs]

/-- An `ELET1` payload seen with the flag already set is a no-op. -/
lemma handle_elet1_of_true (key : String) (d : List Nat)
    (h5 : ¬ d.length < 5) (hs : listStartsWith (message d) ELET1 = true) :
    handle_notify key true d = (true, []) := by
  simp [handle_notify, h5, hs]

/-- With the flag set, a run of `ELET1` payloads does nothing at all. -/
lemma handle_list_elet1_of_true (key : String) (ds : List (List Nat))
    (h : ∀ x ∈ ds, ¬ x.length < 5 ∧ listStartsWith (message x) ELET1 = true) :
    handle_list key true ds = (true, []) := by
  induction ds with
  | nil => rfl
  | cons d rest ih =>
    obtain ⟨h5, hs⟩ := h d (List.mem_cons_self d rest)
    simp [handle_list, handle_elet1_of_true key d h5 hs,
      ih (fun x hx => h x (List.mem_cons_of_mem d hx))]

/-- C4: the press handler is idempotent.  (1) For any nonempty sequence of
payloads whose decoded form starts with `ELET1` (hence with no intervening
`ELET2`), starting from a clear flag, exactly one key-down is issued and the
flag ends true.  (2) Applying the handler twice to the same `ELET1` payload
gives the same final state and the same actions as applying it once. -/
theorem c4_press_idempotent :
    (∀ (key : String) (d : List Nat) (ds : List (List Nat)),
      (∀ x ∈ d :: ds, 5 ≤ x.length ∧ listStartsWith (message x) ELET1 = true) →
      handle_list key false (d :: ds) = (true, [KeyAction.keyDown key])) ∧
    (∀ (key : String) (d : List Nat),
      5 ≤ d.length → listStartsWith (message d) ELET1 = true →
      handle_list key false [d, d] = handle_list key false [d]) := by
  constructor
  · intro key d ds h
    have h1 := h d (List.mem_cons_self d ds)
    have hrest : ∀ x ∈ ds, ¬ x.length < 5 ∧ listStartsWith (message x) ELET1 = true :=
      fun x hx => ⟨Nat.not_lt.mpr (h x (List.mem_cons_of_mem d hx)).1,
        (h x (List.mem_cons_of_mem d hx)).2⟩
    simp [handle_list, handle_elet1_of_false key d (Nat.not_lt.mpr h1.1) h1.2,
      handle_list_elet1_of_true key ds hrest]
  · intro key d h5 hs
    simp [handle_list, handle_elet1_of_false key d (Nat.not_lt.mpr h5) hs,
      handle_elet1_of_true key d (Nat.not_lt.mpr h5) hs]

/-- Witness for C4 at the concrete `b"ELET1"` payload. -/
theorem c4_press_idempotent_witness :
    handle_list "ctrl" false [elet1Bytes, elet1Bytes] = (true, [KeyAction.keyDown "ctrl"]) ∧
    handle_list "ctrl" false [elet1Bytes, elet1Bytes] = handle_list "ctrl" false [elet1Bytes] :=
  ⟨c4_press_idempotent.1 "ctrl" elet1Bytes [elet1Bytes] (by decide),
   c4_press_idempotent.2 "ctrl" elet1Bytes (by decide) (by decide)⟩

/-- The sixteen characters `bytes.hex()` can produce: the digits `0`-`9`
followed by the lowercase letters `a`-`f`. -/
def hexChars : List Char :=
  (List.range 10).map (fun n => Char.ofNat (48 + n)) ++
    (List.range 6).map (fun n => Char.ofNat (97 + n))

lemma hexDigit_mem_hexChars : ∀ n, n < 16 → hexDigit n ∈ hexChars := by decide

lemma hexDigit_ne_upper : ∀ n, n < 16 → hexDigit n ≠ 'E' ∧ hexDigit n ≠ 'B' := by decide

lemma listStartsWith_cons_ne (hd p : Char) (tl ps : List Char) (h : hd ≠ p) :
    listStartsWith (hd :: tl) (p :: ps) = false := by
  simp [listStartsWith, h]

/-- On a payload with a byte at or above 128, ASCII decoding fails and the
message is the hex fallback. -/
lemma message_of_high_byte (data : List Nat) (b : Nat) (hb : b ∈ data)
    (hge : 128 ≤ b) : message data = bytesHex data := by
  have : data.all (fun b => decide (b < 128)) = false := by
    rw [List.all_eq_false]
    exact ⟨b, hb, by simp; omega⟩
  simp [message, decodeAscii, this]

/-- C10: a payload of length at least 5 that is not ASCII-decodable never
changes `button_pressed` and never issues a key action, because its hex
fallback consists only of lowercase hex digits and so cannot start with
`ELET1`, `ELET2` or `BATT`. -/
theorem c10_hex_fallback_noop (key : String) (flag : Bool) (data : List Nat)
    (h5 : 5 ≤ data.length) (hbytes : ∀ b ∈ data, b < 256)
    (hhigh : ∃ b ∈ data, 128 ≤ b) :
    handle_notify key flag data = (flag, []) ∧
    ∀ c ∈ message data, c ∈ hexChars := by
  obtain ⟨b0, hb0, hge⟩ := hhigh
  have hmsg : message data = bytesHex data := message_of_high_byte data b0 hb0 hge
  constructor
  · obtain ⟨b, rest, rfl⟩ : ∃ b rest, data = b :: rest := by
      cases data with
      | nil => simp at h5
      | cons b rest => exact ⟨b, rest, rfl⟩
    have hb16 : b / 16 < 16 := by
      have := hbytes b (List.mem_cons_self b rest)
      omega
    have hcons : bytesHex (b :: rest) =
        hexDigit (b / 16) :: hexDigit (b % 16) :: bytesHex rest := by
      simp [bytesHex]
    have hne := hexDigit_ne_upper (b / 16) hb16
    have h1 : listStartsWith (message (b :: rest)) ELET1 = false := by
      rw [hmsg, hcons]
      exact listStartsWith_cons_ne _ _ _ _ hne.1
    have h2 : listStartsWith (message (b :: rest)) ELET2 = false := by
      rw [hmsg, hcons]
      exact listStartsWith_cons_ne _ _ _ _ hne.1
    have h3 : listStartsWith (message (b :: rest)) BATT = false := by
      rw [hmsg, hcons]
      exact listStartsWith_cons_ne _ _ _ _ hne.2
    simp [handle_notify, Nat.not_lt.mpr h5, h1, h2]
  · intro c hc
    rw [hmsg] at hc
    simp only [bytesHex, List.mem_flatMap, List.mem_cons, List.not_mem_nil,
      or_false] at hc
    obtain ⟨b, hb, hcmem⟩ := hc
    have hblt := hbytes b hb
    rcases hcmem with h | h
    · subst h; exact hexDigit_mem_hexChars _ (by omega)
    · subst h; exact hexDigit_mem_hexChars _ (Nat.mod_lt b (by omega))

/-- Witness for C10 at the concrete payload `[0xff, 0x00, 0x41, 0x41, 0x41]`. -/
theorem c10_hex_fallback_noop_witness :
    handle_notify "ctrl" true [255, 0, 65, 65, 65] = (true, []) ∧
    ∀ c ∈ message [255, 0, 65, 65, 65], c ∈ hexChars :=
  c10_hex_fallback_noop "ctrl" true [255, 0, 65, 65, 65] (by decide)
    (by decide) ⟨255, by decide, by decide⟩

/-- C6 counterexample: the claim that any action-dispatch failure is caught
inside the handler is false — with a dispatch that fails, the handler on a
well-formed `ELET1` payload evaluates to that very error, i.e. the failure
of `pyautogui.keyDown` at line 123 propagates out of `handle_notify`. -/
theorem c6_dispatch_error_escapes :
    handle_notify_fallible (fun _ => Except.error "pyautogui failed") "ctrl"
      false elet1Bytes = Except.error "pyautogui failed" := by
  rfl

/-- C6 amended: the handler catches ASCII-decoding failures (falling back to
hex), so the only errors that can leave `handle_notify` are those of the key
dispatch itself — and those do leave it, unchanged: (1) every error result of
the handler is an error of the dispatch on the configured key; (2) a dispatch
failure on key-down is returned as-is when an `ELET1` payload arrives with the
flag clear. -/
theorem c6_amended_dispatch_error_propagates :
    (∀ (dispatch : KeyAction → Except String Unit) (key : String) (flag : Bool)
        (data : List Nat) (e : String),
      handle_notify_fallible dispatch key flag data = Except.error e →
      dispatch (KeyAction.keyDown key) = Except.error e ∨
        dispatch (KeyAction.keyUp key) = Except.error e) ∧
    (∀ (dispatch : KeyAction → Except String Unit) (key : String)
        (data : List Nat) (e : String),
      ¬ data.length < 5 → listStartsWith (message data) ELET1 = true →
      dispatch (KeyAction.keyDown key) = Except.error e →
      handle_notify_fallible dispatch key false data = Except.error e) := by
  constructor
  · intro dispatch key flag data e h
    unfold handle_notify_fallible at h
    repeat' split at h
    all_goals simp_all
    all_goals (split at h <;> simp_all)
    all_goals (split at h <;> simp_all)
  · intro dispatch key data e h5 hs hd
    simp [handle_notify_fallible, h5, hs, hd]

/-- Witness for C6's amended claim at a failing dispatch and `b"ELET1"`. -/
theorem c6_amended_witness :
    handle_notify_fallible (fun _ => Except.error "boom") "ctrl" false
      elet1Bytes = Except.error "boom" :=
  c6_amended_dispatch_error_propagates.2 (fun _ => Except.error "boom") "ctrl"
    elet1Bytes "boom" (by decide) (by decide) rfl

/-- A first discovered ELET-PTT device, used in concrete evaluations. -/
def dev1 : Device := ⟨"11:22:33:44:55:66", some "ELET-PTT-A"⟩

/-- A second discovered ELET-PTT device, used in concrete evaluations. -/
def dev2 : Device := ⟨"AA:BB:CC:DD:EE:77", some "ELET-PTT-B"⟩

/-- C3 counterexample: with two candidates and the out-of-range choice `5`,
`find_ptt_device` returns exactly the same outcome as a scan that found
nothing (`None` — there is no distinct `Cancelled` value), the same for an
interrupt at the prompt, and the supervisory loop's reaction to it is to
sleep `scan_interval` and rescan, not to stop the program. -/
theorem c3_cancelled_not_distinct :
    find_ptt_device none [dev1, dev2] (OperatorInput.line "5") [] =
      find_ptt_device none [] (OperatorInput.line "5") [] ∧
    find_ptt_device none [dev1, dev2] OperatorInput.interrupt [] =
      ⟨none, none, []⟩ ∧
    main_step (find_ptt_device none [dev1, dev2] (OperatorInput.line "5") []).result =
      MainAction.sleepScanInterval ∧
    main_step (find_ptt_device none [dev1, dev2] (OperatorInput.line "5") []).result ≠
      MainAction.stop := by
  refine ⟨by decide, by decide, by decide, by decide⟩

/-- An operator input that the selection prompt rejects: an interrupt, a line
`int()` cannot parse, or an index outside `1..n`. -/
def invalid_choice (n : Nat) : OperatorInput → Bool
  | OperatorInput.interrupt => true
  | OperatorInput.line s =>
    match pythonInt s with
    | none => true
    | some c => !(decide (0 ≤ c - 1 ∧ c - 1 < (n : Int)))

/-- C3 amended: with several candidates, an invalid index, an unparsable line
or an interrupt makes the resolver return `None` — the same outcome as
`NotFound`, with nothing persisted — and the supervisory loop then sleeps
`scan_interval` and retries; it does not stop the program. -/
theorem c3_amended_invalid_selection_retries (scan : List Device)
    (inp : OperatorInput) (cfg : Config) (d1 d2 : Device) (rest : List Device)
    (hf : scan.filter is_ptt_device = d1 :: d2 :: rest)
    (hinv : invalid_choice (d1 :: d2 :: rest).length inp = true) :
    (find_ptt_device none scan inp cfg).result = none ∧
    (find_ptt_device none scan inp cfg).config = cfg ∧
    main_step (find_ptt_device none scan inp cfg).result =
      MainAction.sleepScanInterval ∧
    main_step (find_ptt_device none scan inp cfg).result ≠ MainAction.stop := by
  have hfind : find_ptt_device none scan inp cfg =
      select_from (d1 :: d2 :: rest) inp cfg := by
    simp [find_ptt_device, discover_and_select, hf]
  cases inp with
  | interrupt =>
    rw [hfind]
    simp [select_from, main_step]
  | line s =>
    rw [hfind]
    unfold select_from
    cases htoi : pythonInt s with
    | none => simp [htoi, main_step]
    | some c =>
      have hrange : ¬(0 ≤ c - 1 ∧ c - 1 < ((d1 :: d2 :: rest).length : Int)) := by
        simp only [invalid_choice, htoi, Bool.not_eq_eq_eq_not, Bool.not_true,
          decide_eq_false_iff_not] at hinv
        exact hinv
      simp only [htoi]
      rw [if_neg hrange]
      simp [main_step]

/-- Witness for C3's amended claim: two candidates, out-of-range index `5`. -/
theorem c3_amended_witness :
    (find_ptt_device none [dev1, dev2] (OperatorInput.line "5") []).result = none ∧
    (find_ptt_device none [dev1, dev2] (OperatorInput.line "5") []).config = [] ∧
    main_step (find_ptt_device none [dev1, dev2] (OperatorInput.line "5") []).result =
      MainAction.sleepScanInterval ∧
    main_step (find_ptt_device none [dev1, dev2] (OperatorInput.line "5") []).result ≠
      MainAction.stop :=
  c3_amended_invalid_selection_retries [dev1, dev2] (OperatorInput.line "5") []
    dev1 dev2 [] (by decide) (by decide)

/-- Reading back an option just written to the configuration yields the
written value. -/
lemma config_get_set (cfg : Config) (sec key val fb : String) :
    config_get (config_set cfg sec key val) sec key fb = val := by
  induction cfg with
  | nil => simp [config_set, config_get]
  | cons e rest ih =>
    by_cases h : (e.1.1 == sec && e.1.2 == key) = true
    · simp [config_set, config_get, h]
    · simp [config_set, config_get, h, ih]

/-- C7: with a non-empty configured address, the resolver returns exactly that
address when some discovered device matches it case-insensitively, returns
`None` otherwise, leaves the configuration untouched, keeps `PTT_MAC` as
configured, and ignores the operator entirely — it never falls back to
name-based discovery or auto-selection. -/
theorem c7_configured_address_verified (mac : String) (scan : List Device)
    (inp inp2 : OperatorInput) (cfg : Config) (hmac : mac ≠ "") :
    ((∃ d ∈ scan, strUpper d.address = strUpper mac) →
      (find_ptt_device (some mac) scan inp cfg).result = some mac) ∧
    ((∀ d ∈ scan, strUpper d.address ≠ strUpper mac) →
      (find_ptt_device (some mac) scan inp cfg).result = none) ∧
    (find_ptt_device (some mac) scan inp cfg).config = cfg ∧
    (find_ptt_device (some mac) scan inp cfg).ptt_mac = some mac ∧
    find_ptt_device (some mac) scan inp cfg = find_ptt_device (some mac) scan inp2 cfg := by
  have hred : ∀ i, find_ptt_device (some mac) scan i cfg = verify_configured mac scan cfg := by
    intro i
    simp [find_ptt_device, hmac]
  refine ⟨?_, ?_, ?_, ?_, ?_⟩
  · rintro ⟨d, hd, he⟩
    rw [hred inp]
    unfold verify_configured
    rw [if_pos]
    rw [List.any_eq_true]
    exact ⟨d, hd, by simp [he]⟩
  · intro hall
    rw [hred inp]
    unfold verify_configured
    rw [if_neg]
    simp only [List.any_eq_true, not_exists]
    intro d
    simp only [not_and]
    intro hd hbeq
    exact hall d hd (by simpa using hbeq)
  · rw [hred inp]; unfold verify_configured; split <;> rfl
  · rw [hred inp]; unfold verify_configured; split <;> rfl
  · rw [hred inp, hred inp2]

/-- Witness for C7: configured `aa:bb:cc:dd:ee:77` matches discovered
`AA:BB:CC:DD:EE:77` case-insensitively. -/
theorem c7_configured_address_verified_witness :
    (find_ptt_device (some "aa:bb:cc:dd:ee:77") [dev1, dev2]
      OperatorInput.interrupt []).result = some "aa:bb:cc:dd:ee:77" :=
  (c7_configured_address_verified "aa:bb:cc:dd:ee:77" [dev1, dev2]
      OperatorInput.interrupt OperatorInput.interrupt [] (by decide)).1
    ⟨dev2, by decide, by decide⟩

/-- C8: when discovery filters the scan down to exactly one candidate, the
resolver auto-selects it, caches it in `PTT_MAC`, persists it into the
configuration, and returns it — so re-reading `PTT.mac_address` afterwards
yields the returned address. -/
theorem c8_autoselect_roundtrip (scan : List Device) (inp : OperatorInput)
    (cfg : Config) (d : Device) (fb : String)
    (hf : scan.filter is_ptt_device = [d]) :
    (find_ptt_device none scan inp cfg).result = some d.address ∧
    (find_ptt_device none scan inp cfg).ptt_mac = some d.address ∧
    config_get (find_ptt_device none scan inp cfg).config "PTT" "mac_address" fb =
      d.address := by
  have hred : find_ptt_device none scan inp cfg =
      ⟨some d.address, some d.address, save_mac_to_config d.address cfg⟩ := by
    simp [find_ptt_device, discover_and_select, hf]
  rw [hred]
  exact ⟨rfl, rfl, config_get_set cfg "PTT" "mac_address" d.address fb⟩

/-- Witness for C8: a scan containing exactly `dev1`. -/
theorem c8_autoselect_roundtrip_witness :
    (find_ptt_device none [dev1] OperatorInput.interrupt []).result = some dev1.address ∧
    (find_ptt_device none [dev1] OperatorInput.interrupt []).ptt_mac = some dev1.address ∧
    config_get (find_ptt_device none [dev1] OperatorInput.interrupt []).config
      "PTT" "mac_address" "" = dev1.address :=
  c8_autoselect_roundtrip [dev1] OperatorInput.interrupt [] dev1 "" (by decide)

end PttGatt
